import Mathlib

set_option linter.unusedVariables false

/-!
Shallow embedding of `src/python-engine/main.py` (Stratford quantum engine).

The repository exposes one FastAPI endpoint, `POST /optimize`
(`optimize_portfolio`), plus a static fallback table
(`fallback_optimization`).  This file embeds that code in Lean 4.

Modelling conventions:
* Python `float` values are modelled as `ℚ`.  The only float operation the
  code performs itself is `round(x, 2)` (round to two decimal places,
  ties-to-even), modelled exactly on rationals by `round2dp`.
* Python `int` values (`risk_tolerance`, the speculative percentages, the
  crypto boost, the fallback table entries) are modelled as `ℤ`.
* Calls into external collaborators (`yfinance.download`, pandas frame
  shape, `pypfopt`'s `EfficientFrontier` objectives / `clean_weights` /
  `portfolio_performance`) are modelled as an environment `Env`: the
  endpoint's own code only branches on their success and reshapes their
  output.  An exception raised by a collaborator is an `Except.error`.
* `random.seed(42)` followed by the two fixed sampling calls is a closed
  deterministic computation of CPython's Mersenne Twister; its value is
  folded into the string constants `powerballPick` / `megaMillionsPick`.
-/

/-- The floor of a rational as `num / den` (Euclidean division; the
denominator is positive, so this is the mathematical floor, see
`ratFloorZ_eq_floor`). -/
def ratFloorZ (q : ℚ) : ℤ := q.num / (q.den : ℤ)

/-- `round x` for a rational: round to the nearest integer, ties to even,
matching CPython's `round` on the exact value. -/
def roundHalfToEven (q : ℚ) : ℤ :=
  let f := ratFloorZ q
  if q - (f : ℚ) < 1/2 then f
  else if (1 : ℚ)/2 < q - (f : ℚ) then f + 1
  else if f % 2 = 0 then f else f + 1

/-- Python `round(x, 2)`: round to two decimal places, ties to even. -/
def round2dp (q : ℚ) : ℚ := (roundHalfToEven (q * 100) : ℚ) / 100

/-- Python `repr`/f-string rendering of a float that is an exact multiple of
`1/100` (every float the code formats has been passed through
`round(_, 2)`): integer part, a dot, then the cents with any trailing zero
dropped, but at least one digit (`5.0`, `33.3`, `33.33`, `0.05`). -/
def fmtFloat (q : ℚ) : String :=
  let n : ℤ := ratFloorZ (q * 100)
  let sign : String := if n < 0 then "-" else ""
  let m : ℕ := n.natAbs
  let ip : ℕ := m / 100
  let c : ℕ := m % 100
  let frac : String :=
    if c % 10 = 0 then toString (c / 10)
    else if c < 10 then "0" ++ toString c
    else toString c
  sign ++ toString ip ++ "." ++ frac

/-- `class MarketAsset(BaseModel)`. -/
structure MarketAsset where
  symbol : String
  type : String
deriving DecidableEq, Repr

/-- `class OptimizationRequest(BaseModel)`. -/
structure OptimizationRequest where
  capital : ℚ
  risk_tolerance : ℤ
  market_data : Option (List MarketAsset) := none
deriving DecidableEq, Repr

/-- `class AllocationItem(BaseModel)`. -/
structure AllocationItem where
  assetClass : String
  percentage : ℚ
  reasoning : String
  recommendedAssets : List String
deriving DecidableEq, Repr

/-- `class OptimizationResponse(BaseModel)`. -/
structure OptimizationResponse where
  allocation : List AllocationItem
  totalProjectedReturn : String
  riskScore : ℤ
  agentSummary : String
deriving DecidableEq, Repr

/-- `UNIVERSE["Stock"]`. -/
def UNIVERSE_Stock : List String := ["SPY", "QQQ", "VTI", "EEM"]

/-- `UNIVERSE["Crypto"]`. -/
def UNIVERSE_Crypto : List String := ["BTC-USD", "ETH-USD", "SOL-USD"]

/-- `UNIVERSE["Commodity"]`. -/
def UNIVERSE_Commodity : List String := ["GLD", "USO", "SLV"]

/-- `UNIVERSE["MutualFund"]`. -/
def UNIVERSE_MutualFund : List String := ["VTSAX", "VFIAX"]

/-- `tickers = UNIVERSE["Stock"] + UNIVERSE["Crypto"] + UNIVERSE["Commodity"] + UNIVERSE["MutualFund"]` (line 56). -/
def tickers : List String :=
  UNIVERSE_Stock ++ UNIVERSE_Crypto ++ UNIVERSE_Commodity ++ UNIVERSE_MutualFund

/-- `fallback_optimization(capital, risk)` (lines 247-264).  `capital` is a
parameter of the Python function but is not read by its body. -/
def fallback_optimization (capital : ℚ) (risk : ℤ) : OptimizationResponse :=
  let stock : ℤ := if risk < 8 then 60 else 40
  let crypto : ℤ := if risk < 4 then 0 else if risk < 8 then 10 else 40
  let commodity : ℤ := 10
  let cash : ℤ := 100 - (stock + crypto + commodity)
  { allocation :=
      [ { assetClass := "Stock", percentage := (stock : ℚ),
          reasoning := "Fallback Model", recommendedAssets := ["SPY"] },
        { assetClass := "Crypto", percentage := (crypto : ℚ),
          reasoning := "Fallback Model", recommendedAssets := ["BTC"] },
        { assetClass := "Commodity", percentage := (commodity : ℚ),
          reasoning := "Fallback Model", recommendedAssets := ["GLD"] },
        { assetClass := "Cash", percentage := (cash : ℚ),
          reasoning := "Fallback Model", recommendedAssets := ["USD"] } ],
    totalProjectedReturn := "10% (Est)",
    riskScore := risk,
    agentSummary := "Live data unavailable. Using heuristic fallback model." }

/-- The pandas frame extracted from the download: the endpoint's own code
only inspects `data.empty` and `len(data)` (line 74); everything else it
does with the frame is handing it to external collaborators. -/
structure MarketData where
  empty : Bool
  length : ℕ
deriving DecidableEq, Repr

/-- The raw result of `yf.download` as far as the code inspects it
(lines 59-72): whether the columns are a MultiIndex and which of the
`Adj Close` / `Close` levels exist, plus the frame each branch extracts. -/
structure RawFrame where
  multiIndex : Bool
  hasAdjClose : Bool
  hasClose : Bool
  adjClose : MarketData
  close : MarketData
  flat : MarketData
deriving DecidableEq, Repr

/-- Lines 62-72: extract the price frame from the raw download, raising
`"No price data available"` when a MultiIndex has neither level. -/
def extractData (raw : RawFrame) : Except String MarketData :=
  if raw.multiIndex then
    if raw.hasAdjClose then Except.ok raw.adjClose
    else if raw.hasClose then Except.ok raw.close
    else Except.error "No price data available"
  else Except.ok raw.flat

/-- The two `EfficientFrontier` objectives the code can call. -/
inductive Objective
  | minVolatility
  | maxSharpe
deriving DecidableEq, Repr

/-- Lines 100-112: the risk mapping choosing the optimizer objective.
`risk <= 3` calls `ef.min_volatility()`; `risk >= 8` calls
`ef.max_sharpe()`; the middle branch also calls `ef.max_sharpe()`. -/
def selectObjective (risk : ℤ) : Objective :=
  if risk ≤ 3 then Objective.minVolatility
  else if risk ≥ 8 then Objective.maxSharpe
  else Objective.maxSharpe

/-- The external collaborators, as the endpoint observes them:
`yf.download` (which may raise), the optimizer run
(objective call followed by `ef.clean_weights()`, which may raise), and
`ef.portfolio_performance` giving `(return, volatility, sharpe)`. -/
structure Env where
  download : Except String RawFrame
  optimizerRun : MarketData → Objective → Except String (List (String × ℚ))
  performance : MarketData → Objective → ℚ × ℚ × ℚ

/-- Lines 57-76: the data-fetch stage inside the `try`.  Any of the three
raises (download failure, missing price level, empty-or-short frame) is an
`Except.error`, which line 80 turns into the fallback. -/
def fetchStage (env : Env) : Except String MarketData :=
  match env.download with
  | Except.error e => Except.error e
  | Except.ok raw =>
    match extractData raw with
    | Except.error e => Except.error e
    | Except.ok data =>
      if data.empty || data.length < 30 then Except.error "Insufficient data"
      else Except.ok data

/-- The loop state of lines 121-126: per-class percentage totals and
formatted asset lists. -/
structure Buckets where
  total_stock : ℚ := 0
  total_crypto : ℚ := 0
  total_commodity : ℚ := 0
  total_mutualfund : ℚ := 0
  stockAssets : List String := []
  cryptoAssets : List String := []
  commodityAssets : List String := []
  mutualfundAssets : List String := []
deriving DecidableEq, Repr

/-- `f"{ticker} ({w_pct}%)"` (lines 133-142). -/
def fmtAsset (ticker : String) (pct : ℚ) : String :=
  ticker ++ " (" ++ fmtFloat pct ++ "%)"

/-- One iteration of the loop over `cleaned_weights.items()` (lines
128-142): round the weight to a percentage, drop it unless strictly
positive, otherwise add it to the class determined by the `elif` chain. -/
def bucketStep (b : Buckets) (tw : String × ℚ) : Buckets :=
  let w_pct := round2dp (tw.2 * 100)
  if 0 < w_pct then
    if tw.1 ∈ UNIVERSE_Stock then
      { b with total_stock := b.total_stock + w_pct,
               stockAssets := b.stockAssets ++ [fmtAsset tw.1 w_pct] }
    else if tw.1 ∈ UNIVERSE_Crypto then
      { b with total_crypto := b.total_crypto + w_pct,
               cryptoAssets := b.cryptoAssets ++ [fmtAsset tw.1 w_pct] }
    else if tw.1 ∈ UNIVERSE_Commodity then
      { b with total_commodity := b.total_commodity + w_pct,
               commodityAssets := b.commodityAssets ++ [fmtAsset tw.1 w_pct] }
    else if tw.1 ∈ UNIVERSE_MutualFund then
      { b with total_mutualfund := b.total_mutualfund + w_pct,
               mutualfundAssets := b.mutualfundAssets ++ [fmtAsset tw.1 w_pct] }
    else b
  else b

/-- Lines 119-142: the whole bucketing loop, starting from zero totals and
empty lists. -/
def bucketStage (weights : List (String × ℚ)) : Buckets :=
  weights.foldl bucketStep {}

/-- Lines 144-148: force a minimum crypto allocation when `risk >= 6` and
the optimizer assigned no crypto. -/
def cryptoBoostStage (risk : ℤ) (b : Buckets) : Buckets :=
  if 6 ≤ risk ∧ b.total_crypto = 0 then
    let crypto_boost : ℤ := min 5 (risk - 5)
    { b with total_crypto := (crypto_boost : ℚ),
             cryptoAssets := b.cryptoAssets ++
               ["BTC-USD (" ++ toString crypto_boost ++ "%)"] }
  else b

/-- The Powerball string of line 192: CPython's Mersenne Twister seeded
with 42 gives `sorted(random.sample(range(1, 70), 5)) = [4, 15, 29, 32, 36]`
and `random.randint(1, 26) = 5`. -/
def powerballPick : String := "POWERBALL: 4-15-29-32-36 PB:5"

/-- The Mega Millions string of line 193: continuing the same seeded
generator gives `[5, 12, 14, 55, 70]` and `random.randint(1, 25) = 1`. -/
def megaMillionsPick : String := "MEGA MILLIONS: 5-12-14-55-70 MB:1"

/-- Lines 150-195: the speculative overlay.  Returns the speculative
allocation list and the `reduction_factor` later applied to the core
portfolio (initialised to `1.0` on line 154). -/
def speculativeStage (risk : ℤ) : List AllocationItem × ℚ :=
  if 8 ≤ risk then
    let prediction_pct : ℤ := (risk - 7) * 3
    let sports_pct : ℤ := (risk - 7) * 2
    let lottery_pct : ℤ := (risk - 7) * 1
    let total_spec : ℤ := prediction_pct + sports_pct + lottery_pct
    ( [ { assetClass := "Prediction", percentage := (prediction_pct : ℚ),
          reasoning := "High-conviction binary alpha via prediction markets.",
          recommendedAssets :=
            ["FED-RATES-JUN25", "TRUMP-ELECTION-2028", "RECESSION-2025"] },
        { assetClass := "Sports", percentage := (sports_pct : ℚ),
          reasoning := "Statistical edge in sports betting markets.",
          recommendedAssets :=
            ["NBA: Lakers ML", "NFL: Chiefs -3.5", "EPL: Man City Over 2.5"] },
        { assetClass := "Lottery", percentage := (lottery_pct : ℚ),
          reasoning :=
            "Positive convexity black swan exposure with optimized number selection.",
          recommendedAssets := [powerballPick, megaMillionsPick] } ],
      ((100 - total_spec : ℤ) : ℚ) / 100 )
  else ([], 1)

/-- Lines 198-230: the core part of the final allocation list: each
nonempty bucket becomes one item, its total scaled by the reduction factor
and re-rounded. -/
def coreItems (b : Buckets) (factor : ℚ) : List AllocationItem :=
  (if 0 < b.total_stock then
    [ { assetClass := "Stock", percentage := round2dp (b.total_stock * factor),
        reasoning := "Mean-Variance Optimized equity basket.",
        recommendedAssets := b.stockAssets } ]
   else []) ++
  (if 0 < b.total_crypto then
    [ { assetClass := "Crypto", percentage := round2dp (b.total_crypto * factor),
        reasoning := "Efficient Frontier maximized crypto exposure.",
        recommendedAssets := b.cryptoAssets } ]
   else []) ++
  (if 0 < b.total_commodity then
    [ { assetClass := "Commodity",
        percentage := round2dp (b.total_commodity * factor),
        reasoning := "Uncorrelated diversification.",
        recommendedAssets := b.commodityAssets } ]
   else []) ++
  (if 0 < b.total_mutualfund then
    [ { assetClass := "MutualFund",
        percentage := round2dp (b.total_mutualfund * factor),
        reasoning := "Low-cost diversified index funds.",
        recommendedAssets := b.mutualfundAssets } ]
   else [])

/-- Lines 198-232: assemble the final allocation list: the core items
followed by the speculative overlay (`allocations.extend(...)`, line 232). -/
def assembleStage (b : Buckets) (spec : List AllocationItem) (factor : ℚ) :
    List AllocationItem :=
  coreItems b factor ++ spec

/-- Lines 234-244: round the performance numbers and build the response
strings. -/
def formatStage (risk : ℤ) (alloc : List AllocationItem) (perf : ℚ × ℚ × ℚ) :
    OptimizationResponse :=
  let ret := round2dp (perf.1 * 100)
  let vol := round2dp (perf.2.1 * 100)
  let sharpe := round2dp perf.2.2
  { allocation := alloc,
    totalProjectedReturn :=
      fmtFloat ret ++ "% Ann. Return (Vol: " ++ fmtFloat vol ++
        "%, Sharpe: " ++ fmtFloat sharpe ++ ")",
    riskScore := risk,
    agentSummary :=
      "Mathematically optimized using Modern Portfolio Theory on live market data. Portfolio maximizes Sharpe Ratio (" ++
        fmtFloat sharpe ++ ") given historical correlations." }

/-- Lines 119-245: everything after a successful optimizer run: bucket the
cleaned weights, force the crypto minimum, build the speculative overlay,
assemble, and format. -/
def mainResponse (risk : ℤ) (cleaned_weights : List (String × ℚ))
    (perf : ℚ × ℚ × ℚ) : OptimizationResponse :=
  let b := cryptoBoostStage risk (bucketStage cleaned_weights)
  let sp := speculativeStage risk
  formatStage risk (assembleStage b sp.1 sp.2) perf

/-- `optimize_portfolio(request)` (lines 50-245): the `/optimize`
endpoint.  The request's `market_data` field is deliberately ignored
(lines 20-22). -/
def optimize_portfolio (env : Env) (request : OptimizationRequest) :
    OptimizationResponse :=
  let risk := request.risk_tolerance
  let capital := request.capital
  match fetchStage env with
  | Except.error _ => fallback_optimization capital risk
  | Except.ok data =>
    match env.optimizerRun data (selectObjective risk) with
    | Except.error _ => fallback_optimization capital risk
    | Except.ok cleaned_weights =>
      mainResponse risk cleaned_weights (env.performance data (selectObjective risk))

/-! ## Derived notions used to state the claims -/

/-- The sum of the `percentage` fields of an allocation list. -/
def sumPct (items : List AllocationItem) : ℚ :=
  (items.map AllocationItem.percentage).sum

/-- `w_pct = round(weight * 100, 2)` for one `(ticker, weight)` pair
(line 129). -/
def w_pctOf (tw : String × ℚ) : ℚ := round2dp (tw.2 * 100)

/-- A `(ticker, weight)` pair that the loop keeps for the given asset
class: strictly positive rounded percentage and membership in the class
list. -/
def retained (cls : List String) (tw : String × ℚ) : Bool :=
  decide (0 < w_pctOf tw) && decide (tw.1 ∈ cls)

/-- The percentage total a class list receives from the bucketing loop. -/
def classTotal (cls : List String) (w : List (String × ℚ)) : ℚ :=
  ((w.filter (retained cls)).map w_pctOf).sum

/-- The formatted entries a class list receives from the bucketing loop. -/
def classEntries (cls : List String) (w : List (String × ℚ)) : List String :=
  (w.filter (retained cls)).map (fun tw => fmtAsset tw.1 (w_pctOf tw))

/-- A rational that is an exact multiple of `1/100` — the form of every
value that has passed through `round(_, 2)`. -/
def IsCent (q : ℚ) : Prop := ∃ n : ℤ, q = (n : ℚ) / 100

/-- A sequence of requests handled by the service: each request is mapped
through the endpoint, no state carried from one to the next (the Python
module keeps no mutable state between calls apart from the PRNG, which is
re-seeded inside the handler). -/
def handleSequence (env : Env) (reqs : List OptimizationRequest) :
    List OptimizationResponse :=
  reqs.map (optimize_portfolio env)

/-! ## Concrete inputs used for counterexamples and witnesses -/

/-- A successful download: a flat (non-MultiIndex) frame with 260 rows. -/
def rawOk : RawFrame :=
  { multiIndex := false, hasAdjClose := false, hasClose := false,
    adjClose := { empty := false, length := 0 },
    close := { empty := false, length := 0 },
    flat := { empty := false, length := 260 } }

/-- An environment where fetch and optimizer succeed, the optimizer
returning the given cleaned weights. -/
def mkEnv (w : List (String × ℚ)) : Env :=
  { download := Except.ok rawOk,
    optimizerRun := fun _ _ => Except.ok w,
    performance := fun _ _ => (1/10, 1/5, 3/2) }

/-- An environment where the download raises (e.g. a rate limit). -/
def envFetchFail : Env :=
  { download := Except.error "HTTP 429",
    optimizerRun := fun _ _ => Except.ok [],
    performance := fun _ _ => (0, 0, 0) }

/-- An environment where the download succeeds but the optimizer raises. -/
def envOptFail : Env :=
  { download := Except.ok rawOk,
    optimizerRun := fun _ _ => Except.error "Solver failed",
    performance := fun _ _ => (0, 0, 0) }

/-- Cleaned weights splitting the portfolio in three equal parts: they sum
to exactly 1, yet each rounds to 33.33%. -/
def thirdsWeights : List (String × ℚ) :=
  [("SPY", 1/3), ("QQQ", 1/3), ("VTI", 1/3)]

/-- A risk-5 request with 10000 of capital. -/
def reqRisk5 : OptimizationRequest :=
  { capital := 10000, risk_tolerance := 5, market_data := none }

/-- Cleaned weights over two universe tickers, used as a witness input. -/
def witnessWeights : List (String × ℚ) := [("SPY", 1/2), ("BTC-USD", 1/4)]

/-! ## Lemmas about rounding -/

theorem ratFloorZ_eq_floor (q : ℚ) : ratFloorZ q = ⌊q⌋ := Rat.floor_def.symm

theorem roundHalfToEven_intCast (n : ℤ) : roundHalfToEven (n : ℚ) = n := by
  simp [roundHalfToEven, ratFloorZ_eq_floor]

theorem round2dp_intCast_div (n : ℤ) : round2dp ((n : ℚ) / 100) = (n : ℚ) / 100 := by
  have h : ((n : ℚ) / 100) * 100 = (n : ℚ) := by field_simp
  rw [round2dp, h, roundHalfToEven_intCast]

theorem isCent_round2dp (q : ℚ) : IsCent (round2dp q) := ⟨roundHalfToEven (q * 100), rfl⟩

theorem round2dp_of_isCent {q : ℚ} (h : IsCent q) : round2dp q = q := by
  obtain ⟨n, rfl⟩ := h
  exact round2dp_intCast_div n

theorem isCent_zero : IsCent 0 := ⟨0, by norm_num⟩

theorem isCent_add {a b : ℚ} (ha : IsCent a) (hb : IsCent b) : IsCent (a + b) := by
  obtain ⟨m, rfl⟩ := ha
  obtain ⟨n, rfl⟩ := hb
  exact ⟨m + n, by push_cast; ring⟩

theorem isCent_intCast (n : ℤ) : IsCent ((n : ℤ) : ℚ) := ⟨n * 100, by push_cast; ring⟩

theorem isCent_sum {l : List ℚ} (h : ∀ x ∈ l, IsCent x) : IsCent l.sum := by
  induction l with
  | nil => simpa using isCent_zero
  | cons a t ih =>
    rw [List.sum_cons]
    exact isCent_add (h a (by simp)) (ih fun x hx => h x (by simp [hx]))

/-! ## Lemmas about the fallback table -/

theorem fallback_sumPct (capital : ℚ) (risk : ℤ) :
    sumPct (fallback_optimization capital risk).allocation = 100 := by
  simp only [fallback_optimization, sumPct, List.map_cons, List.map_nil,
    List.sum_cons, List.sum_nil]
  split_ifs <;> norm_num

/-! ## The claims -/

/-- C1 (amended), positive part: every response produced by the fallback
path has percentage fields summing to exactly 100. -/
theorem fallback_percentages_sum_to_100 (capital : ℚ) (risk : ℤ) :
    sumPct (fallback_optimization capital risk).allocation = 100 :=
  fallback_sumPct capital risk

/-- C1, counterexample: on the non-fallback path the percentages need not
sum to 100.  With live data present and the optimizer returning the exact
weights 1/3, 1/3, 1/3 (which sum to exactly 1) at risk 5, each weight
rounds to 33.33 and the response's percentages sum to 99.99. -/
theorem optimize_percentage_sum_ne_100 :
    sumPct (optimize_portfolio (mkEnv thirdsWeights) reqRisk5).allocation ≠ 100 := by
  norm_num [optimize_portfolio, mkEnv, rawOk, thirdsWeights, reqRisk5, fetchStage,
    extractData, selectObjective, mainResponse, bucketStage, bucketStep,
    cryptoBoostStage, speculativeStage, assembleStage, coreItems, formatStage,
    sumPct, fmtAsset, w_pctOf, round2dp, roundHalfToEven, ratFloorZ,
    UNIVERSE_Stock, UNIVERSE_Crypto, UNIVERSE_Commodity, UNIVERSE_MutualFund]

/-- C3: the optimizer objective depends only on the risk tier:
`min_volatility` exactly when `risk_tolerance <= 3`, `max_sharpe` for every
risk from 4 to 10 (tiers 4-7 and 8-10 coincide), and no third objective
exists. -/
theorem selectObjective_tiers :
    (∀ risk : ℤ, selectObjective risk = Objective.minVolatility ↔ risk ≤ 3) ∧
    (∀ risk : ℤ, 4 ≤ risk → risk ≤ 10 → selectObjective risk = Objective.maxSharpe) ∧
    (∀ risk : ℤ, selectObjective risk = Objective.minVolatility ∨
      selectObjective risk = Objective.maxSharpe) := by
  refine ⟨fun risk => ?_, fun risk h4 h10 => ?_, fun risk => ?_⟩
  · unfold selectObjective
    split_ifs with h1 h2 <;> simp [h1]
  · unfold selectObjective
    split_ifs with h1 h2
    · omega
    · rfl
    · rfl
  · unfold selectObjective
    split_ifs <;> simp

/-- Witness for C3 at concrete risks 2 and 9. -/
theorem selectObjective_tiers_witness :
    selectObjective 2 = Objective.minVolatility ∧
    selectObjective 9 = Objective.maxSharpe :=
  ⟨(selectObjective_tiers.1 2).mpr (by norm_num),
   selectObjective_tiers.2.1 9 (by norm_num) (by norm_num)⟩

/-- C8: two requests that differ only in `capital` get identical
responses, on the main path and on the fallback path alike: the endpoint
never reads `capital` except to pass it to `fallback_optimization`, whose
body ignores it. -/
theorem capital_noninterference (env : Env) (c₁ c₂ : ℚ) (risk : ℤ)
    (md : Option (List MarketAsset)) :
    optimize_portfolio env { capital := c₁, risk_tolerance := risk, market_data := md } =
    optimize_portfolio env { capital := c₂, risk_tolerance := risk, market_data := md } := by
  unfold optimize_portfolio
  cases fetchStage env with
  | error e => rfl
  | ok data => cases env.optimizerRun data (selectObjective risk) with
    | error e => rfl
    | ok w => rfl

/-- C9: on the non-fallback path, when `risk_tolerance >= 6` and the
bucketed crypto total is zero, a forced `min(5, risk - 5)` percent BTC-USD
allocation is inserted, and no other bucket total or asset list changes at
that point. -/
theorem crypto_boost_effect (risk : ℤ) (w : List (String × ℚ))
    (h6 : 6 ≤ risk) (h0 : (bucketStage w).total_crypto = 0) :
    (cryptoBoostStage risk (bucketStage w)).total_crypto =
      ((min 5 (risk - 5) : ℤ) : ℚ) ∧
    (cryptoBoostStage risk (bucketStage w)).cryptoAssets =
      (bucketStage w).cryptoAssets ++
        ["BTC-USD (" ++ toString (min 5 (risk - 5) : ℤ) ++ "%)"] ∧
    (cryptoBoostStage risk (bucketStage w)).total_stock = (bucketStage w).total_stock ∧
    (cryptoBoostStage risk (bucketStage w)).total_commodity = (bucketStage w).total_commodity ∧
    (cryptoBoostStage risk (bucketStage w)).total_mutualfund = (bucketStage w).total_mutualfund ∧
    (cryptoBoostStage risk (bucketStage w)).stockAssets = (bucketStage w).stockAssets ∧
    (cryptoBoostStage risk (bucketStage w)).commodityAssets = (bucketStage w).commodityAssets ∧
    (cryptoBoostStage risk (bucketStage w)).mutualfundAssets = (bucketStage w).mutualfundAssets := by
  simp [cryptoBoostStage, h6, h0]

/-- Witness for C9 at risk 7 with an empty weight list: the boost is
`min(5, 2) = 2` percent. -/
theorem crypto_boost_effect_witness :
    (cryptoBoostStage 7 (bucketStage [])).total_crypto = 2 :=
  ((crypto_boost_effect 7 [] (by norm_num) rfl).1).trans (by norm_num)

/-- C10: for every risk 1-10 the fallback table has exactly the four items
Stock, Crypto, Commodity, Cash in that order, Cash is 100 minus the sum of
the other three, the percentages sum to 100, and the risk score echoes the
request. -/
theorem fallback_table_shape (capital : ℚ) (risk : ℤ)
    (h1 : 1 ≤ risk) (h10 : risk ≤ 10) :
    ∃ s c : ℤ,
      (fallback_optimization capital risk).allocation =
        [ { assetClass := "Stock", percentage := (s : ℚ),
            reasoning := "Fallback Model", recommendedAssets := ["SPY"] },
          { assetClass := "Crypto", percentage := (c : ℚ),
            reasoning := "Fallback Model", recommendedAssets := ["BTC"] },
          { assetClass := "Commodity", percentage := (10 : ℚ),
            reasoning := "Fallback Model", recommendedAssets := ["GLD"] },
          { assetClass := "Cash", percentage := ((100 - (s + c + 10) : ℤ) : ℚ),
            reasoning := "Fallback Model", recommendedAssets := ["USD"] } ] ∧
      sumPct (fallback_optimization capital risk).allocation = 100 ∧
      (fallback_optimization capital risk).riskScore = risk := by
  refine ⟨if risk < 8 then 60 else 40,
          if risk < 4 then 0 else if risk < 8 then 10 else 40,
          ?_, fallback_sumPct capital risk, rfl⟩
  simp only [fallback_optimization]
  split_ifs <;> norm_num

/-! ## The bucketing loop as filter/map/sum -/

theorem universe_disjoint :
    (∀ t ∈ UNIVERSE_Stock,
      t ∉ UNIVERSE_Crypto ∧ t ∉ UNIVERSE_Commodity ∧ t ∉ UNIVERSE_MutualFund) ∧
    (∀ t ∈ UNIVERSE_Crypto,
      t ∉ UNIVERSE_Stock ∧ t ∉ UNIVERSE_Commodity ∧ t ∉ UNIVERSE_MutualFund) ∧
    (∀ t ∈ UNIVERSE_Commodity,
      t ∉ UNIVERSE_Stock ∧ t ∉ UNIVERSE_Crypto ∧ t ∉ UNIVERSE_MutualFund) ∧
    (∀ t ∈ UNIVERSE_MutualFund,
      t ∉ UNIVERSE_Stock ∧ t ∉ UNIVERSE_Crypto ∧ t ∉ UNIVERSE_Commodity) := by
  decide

theorem classTotal_nil (cls : List String) : classTotal cls [] = 0 := rfl

theorem classEntries_nil (cls : List String) : classEntries cls [] = [] := rfl

theorem classTotal_cons (cls : List String) (a : String × ℚ) (w : List (String × ℚ)) :
    classTotal cls (a :: w) =
      (if retained cls a then w_pctOf a else 0) + classTotal cls w := by
  by_cases h : retained cls a <;> simp [classTotal, List.filter_cons, h]

theorem classEntries_cons (cls : List String) (a : String × ℚ) (w : List (String × ℚ)) :
    classEntries cls (a :: w) =
      (if retained cls a then [fmtAsset a.1 (w_pctOf a)] else []) ++ classEntries cls w := by
  by_cases h : retained cls a <;> simp [classEntries, List.filter_cons, h]

theorem foldl_bucketStep_eq (w : List (String × ℚ)) (b : Buckets) :
    w.foldl bucketStep b =
      { total_stock := b.total_stock + classTotal UNIVERSE_Stock w,
        total_crypto := b.total_crypto + classTotal UNIVERSE_Crypto w,
        total_commodity := b.total_commodity + classTotal UNIVERSE_Commodity w,
        total_mutualfund := b.total_mutualfund + classTotal UNIVERSE_MutualFund w,
        stockAssets := b.stockAssets ++ classEntries UNIVERSE_Stock w,
        cryptoAssets := b.cryptoAssets ++ classEntries UNIVERSE_Crypto w,
        commodityAssets := b.commodityAssets ++ classEntries UNIVERSE_Commodity w,
        mutualfundAssets := b.mutualfundAssets ++ classEntries UNIVERSE_MutualFund w } := by
  induction w generalizing b with
  | nil => simp [classTotal_nil, classEntries_nil]
  | cons a t ih =>
    rw [List.foldl_cons, ih]
    simp only [classTotal_cons, classEntries_cons, Buckets.mk.injEq, retained, w_pctOf,
      Bool.and_eq_true, decide_eq_true_eq]
    by_cases hp : 0 < round2dp (a.2 * 100)
    · by_cases hs : a.1 ∈ UNIVERSE_Stock
      · obtain ⟨hc, hcm, hmf⟩ := universe_disjoint.1 a.1 hs
        simp [bucketStep, hp, hs, hc, hcm, hmf, add_assoc]
      · by_cases hc : a.1 ∈ UNIVERSE_Crypto
        · obtain ⟨_, hcm, hmf⟩ := universe_disjoint.2.1 a.1 hc
          simp [bucketStep, hp, hs, hc, hcm, hmf, add_assoc]
        · by_cases hcm : a.1 ∈ UNIVERSE_Commodity
          · obtain ⟨_, _, hmf⟩ := universe_disjoint.2.2.1 a.1 hcm
            simp [bucketStep, hp, hs, hc, hcm, hmf, add_assoc]
          · by_cases hmf : a.1 ∈ UNIVERSE_MutualFund
            · simp [bucketStep, hp, hs, hc, hcm, hmf, add_assoc]
            · simp [bucketStep, hp, hs, hc, hcm, hmf]
    · simp [bucketStep, hp]

theorem bucketStage_eq (w : List (String × ℚ)) :
    bucketStage w =
      { total_stock := classTotal UNIVERSE_Stock w,
        total_crypto := classTotal UNIVERSE_Crypto w,
        total_commodity := classTotal UNIVERSE_Commodity w,
        total_mutualfund := classTotal UNIVERSE_MutualFund w,
        stockAssets := classEntries UNIVERSE_Stock w,
        cryptoAssets := classEntries UNIVERSE_Crypto w,
        commodityAssets := classEntries UNIVERSE_Commodity w,
        mutualfundAssets := classEntries UNIVERSE_MutualFund w } := by
  rw [bucketStage, foldl_bucketStep_eq]
  simp

/-- C7: each cleaned weight is rounded to a 2-decimal percentage
(`w_pctOf`); non-positive rounded percentages are discarded; each bucket's
total is the sum of the rounded percentages of the retained tickers of its
universe class and its recommendedAssets list is their formatted entries,
one per ticker; and each retained universe ticker belongs to exactly one
of the four classes. -/
theorem bucketing_characterization (w : List (String × ℚ))
    (hw : ∀ tw ∈ w, tw.1 ∈ tickers) :
    (bucketStage w).total_stock = classTotal UNIVERSE_Stock w ∧
    (bucketStage w).total_crypto = classTotal UNIVERSE_Crypto w ∧
    (bucketStage w).total_commodity = classTotal UNIVERSE_Commodity w ∧
    (bucketStage w).total_mutualfund = classTotal UNIVERSE_MutualFund w ∧
    (bucketStage w).stockAssets = classEntries UNIVERSE_Stock w ∧
    (bucketStage w).cryptoAssets = classEntries UNIVERSE_Crypto w ∧
    (bucketStage w).commodityAssets = classEntries UNIVERSE_Commodity w ∧
    (bucketStage w).mutualfundAssets = classEntries UNIVERSE_MutualFund w ∧
    ∀ tw ∈ w, 0 < w_pctOf tw →
      ((if tw.1 ∈ UNIVERSE_Stock then 1 else 0) +
       (if tw.1 ∈ UNIVERSE_Crypto then 1 else 0) +
       (if tw.1 ∈ UNIVERSE_Commodity then 1 else 0) +
       (if tw.1 ∈ UNIVERSE_MutualFund then 1 else 0) : ℕ) = 1 := by
  have hb := bucketStage_eq w
  refine ⟨by rw [hb], by rw [hb], by rw [hb], by rw [hb],
          by rw [hb], by rw [hb], by rw [hb], by rw [hb], ?_⟩
  intro tw htw hp
  have ht := hw tw htw
  have ht2 : tw.1 ∈ ["SPY", "QQQ", "VTI", "EEM", "BTC-USD", "ETH-USD", "SOL-USD",
      "GLD", "USO", "SLV", "VTSAX", "VFIAX"] := by
    simpa [tickers, UNIVERSE_Stock, UNIVERSE_Crypto, UNIVERSE_Commodity,
      UNIVERSE_MutualFund] using ht
  simp only [List.mem_cons, List.not_mem_nil, or_false] at ht2
  rcases ht2 with h|h|h|h|h|h|h|h|h|h|h|h <;> rw [h] <;> decide

theorem witness_classTotal_stock : classTotal UNIVERSE_Stock witnessWeights = 50 := by
  have m1 : "SPY" ∈ UNIVERSE_Stock := by decide
  have m2 : "BTC-USD" ∉ UNIVERSE_Stock := by decide
  have e1 : round2dp (50 : ℚ) = 50 := round2dp_of_isCent ⟨5000, by norm_num⟩
  have e2 : round2dp (25 : ℚ) = 25 := round2dp_of_isCent ⟨2500, by norm_num⟩
  norm_num [classTotal, witnessWeights, retained, w_pctOf, List.filter_cons,
    e1, e2, m1, m2]

theorem witness_classTotal_crypto : classTotal UNIVERSE_Crypto witnessWeights = 25 := by
  have m3 : "BTC-USD" ∈ UNIVERSE_Crypto := by decide
  have m4 : "SPY" ∉ UNIVERSE_Crypto := by decide
  have e1 : round2dp (50 : ℚ) = 50 := round2dp_of_isCent ⟨5000, by norm_num⟩
  have e2 : round2dp (25 : ℚ) = 25 := round2dp_of_isCent ⟨2500, by norm_num⟩
  norm_num [classTotal, witnessWeights, retained, w_pctOf, List.filter_cons,
    e1, e2, m3, m4]

/-- Witness for C7 on concrete weights SPY 0.5, BTC-USD 0.25: the stock
bucket totals 50 and the crypto bucket totals 25. -/
theorem bucketing_characterization_witness :
    (bucketStage witnessWeights).total_stock = 50 ∧
    (bucketStage witnessWeights).total_crypto = 25 := by
  have h := bucketing_characterization witnessWeights (by decide)
  exact ⟨h.1.trans witness_classTotal_stock, h.2.1.trans witness_classTotal_crypto⟩

/-! ## Cent-multiple facts about bucket totals -/

theorem isCent_classTotal (cls : List String) (w : List (String × ℚ)) :
    IsCent (classTotal cls w) := by
  rw [classTotal]
  refine isCent_sum ?_
  intro x hx
  simp only [List.mem_map] at hx
  obtain ⟨tw, htw, rfl⟩ := hx
  exact isCent_round2dp (tw.2 * 100)

theorem isCent_boostedTotals (risk : ℤ) (w : List (String × ℚ)) :
    IsCent (cryptoBoostStage risk (bucketStage w)).total_stock ∧
    IsCent (cryptoBoostStage risk (bucketStage w)).total_crypto ∧
    IsCent (cryptoBoostStage risk (bucketStage w)).total_commodity ∧
    IsCent (cryptoBoostStage risk (bucketStage w)).total_mutualfund := by
  unfold cryptoBoostStage
  by_cases hc : 6 ≤ risk ∧ (bucketStage w).total_crypto = 0
  · simp only [if_pos hc]
    exact ⟨by rw [bucketStage_eq]; exact isCent_classTotal _ w,
           isCent_intCast _,
           by rw [bucketStage_eq]; exact isCent_classTotal _ w,
           by rw [bucketStage_eq]; exact isCent_classTotal _ w⟩
  · simp only [if_neg hc]
    refine ⟨?_, ?_, ?_, ?_⟩ <;> rw [bucketStage_eq] <;> exact isCent_classTotal _ w

/-- C2: the speculative overlay.  When `risk_tolerance >= 8` the response
ends with exactly the three speculative items Prediction, Sports, Lottery
carrying `(risk-7)*3`, `(risk-7)*2` and `(risk-7)*1` percent, and every
core item's percentage is its bucket total multiplied by the reduction
factor `(100 - total_spec)/100` and then rounded; when
`risk_tolerance < 8` no speculative item appears and each core item
carries its bucket total unscaled. -/
theorem speculative_overlay_shape (risk : ℤ) (w : List (String × ℚ))
    (perf : ℚ × ℚ × ℚ) (b : Buckets) (f : ℚ)
    (hb : b = cryptoBoostStage risk (bucketStage w))
    (hf : f = ((100 - ((risk - 7) * 3 + (risk - 7) * 2 + (risk - 7) * 1) : ℤ) : ℚ) / 100) :
    (8 ≤ risk →
      (mainResponse risk w perf).allocation =
        (if 0 < b.total_stock then
          [ { assetClass := "Stock", percentage := round2dp (b.total_stock * f),
              reasoning := "Mean-Variance Optimized equity basket.",
              recommendedAssets := b.stockAssets } ]
         else []) ++
        (if 0 < b.total_crypto then
          [ { assetClass := "Crypto", percentage := round2dp (b.total_crypto * f),
              reasoning := "Efficient Frontier maximized crypto exposure.",
              recommendedAssets := b.cryptoAssets } ]
         else []) ++
        (if 0 < b.total_commodity then
          [ { assetClass := "Commodity", percentage := round2dp (b.total_commodity * f),
              reasoning := "Uncorrelated diversification.",
              recommendedAssets := b.commodityAssets } ]
         else []) ++
        (if 0 < b.total_mutualfund then
          [ { assetClass := "MutualFund", percentage := round2dp (b.total_mutualfund * f),
              reasoning := "Low-cost diversified index funds.",
              recommendedAssets := b.mutualfundAssets } ]
         else []) ++
        [ { assetClass := "Prediction", percentage := (((risk - 7) * 3 : ℤ) : ℚ),
            reasoning := "High-conviction binary alpha via prediction markets.",
            recommendedAssets :=
              ["FED-RATES-JUN25", "TRUMP-ELECTION-2028", "RECESSION-2025"] },
          { assetClass := "Sports", percentage := (((risk - 7) * 2 : ℤ) : ℚ),
            reasoning := "Statistical edge in sports betting markets.",
            recommendedAssets :=
              ["NBA: Lakers ML", "NFL: Chiefs -3.5", "EPL: Man City Over 2.5"] },
          { assetClass := "Lottery", percentage := (((risk - 7) * 1 : ℤ) : ℚ),
            reasoning :=
              "Positive convexity black swan exposure with optimized number selection.",
            recommendedAssets := [powerballPick, megaMillionsPick] } ]) ∧
    (risk < 8 →
      (mainResponse risk w perf).allocation =
        (if 0 < b.total_stock then
          [ { assetClass := "Stock", percentage := b.total_stock,
              reasoning := "Mean-Variance Optimized equity basket.",
              recommendedAssets := b.stockAssets } ]
         else []) ++
        (if 0 < b.total_crypto then
          [ { assetClass := "Crypto", percentage := b.total_crypto,
              reasoning := "Efficient Frontier maximized crypto exposure.",
              recommendedAssets := b.cryptoAssets } ]
         else []) ++
        (if 0 < b.total_commodity then
          [ { assetClass := "Commodity", percentage := b.total_commodity,
              reasoning := "Uncorrelated diversification.",
              recommendedAssets := b.commodityAssets } ]
         else []) ++
        (if 0 < b.total_mutualfund then
          [ { assetClass := "MutualFund", percentage := b.total_mutualfund,
              reasoning := "Low-cost diversified index funds.",
              recommendedAssets := b.mutualfundAssets } ]
         else [])) := by
  subst hb
  subst hf
  obtain ⟨c1, c2, c3, c4⟩ := isCent_boostedTotals risk w
  constructor
  · intro h8
    simp only [mainResponse, formatStage, assembleStage, coreItems, speculativeStage,
      if_pos h8, List.append_assoc]
  · intro hlt
    have h8 : ¬ 8 ≤ risk := by omega
    simp only [mainResponse, formatStage, assembleStage, coreItems, speculativeStage,
      if_neg h8, List.append_nil, mul_one]
    rw [round2dp_of_isCent c1, round2dp_of_isCent c2, round2dp_of_isCent c3,
      round2dp_of_isCent c4]

/-- Witness for C2 at risks 9 and 5 with the witness weights. -/
theorem speculative_overlay_shape_witness :
    ((mainResponse 9 witnessWeights (1/10, 1/5, 3/2)).allocation.map
        AllocationItem.assetClass =
      ["Stock", "Crypto", "Prediction", "Sports", "Lottery"]) ∧
    ((mainResponse 5 witnessWeights (1/10, 1/5, 3/2)).allocation.map
        AllocationItem.assetClass = ["Stock", "Crypto"]) := by
  have h9 := (speculative_overlay_shape 9 witnessWeights (1/10, 1/5, 3/2)
    (cryptoBoostStage 9 (bucketStage witnessWeights)) ((88 : ℚ) / 100) rfl
    (by norm_num)).1 (by norm_num)
  have h5 := (speculative_overlay_shape 5 witnessWeights (1/10, 1/5, 3/2)
    (cryptoBoostStage 5 (bucketStage witnessWeights)) ((112 : ℚ) / 100) rfl
    (by norm_num)).2 (by norm_num)
  have hb1 : (bucketStage witnessWeights).total_stock = 50 := by
    rw [bucketStage_eq]; exact witness_classTotal_stock
  have hb2 : (bucketStage witnessWeights).total_crypto = 25 := by
    rw [bucketStage_eq]; exact witness_classTotal_crypto
  rw [h9, h5]
  have m1 : "SPY" ∈ UNIVERSE_Stock := by decide
  have m2 : "BTC-USD" ∉ UNIVERSE_Stock := by decide
  have m3 : "BTC-USD" ∈ UNIVERSE_Crypto := by decide
  have m4 : "SPY" ∉ UNIVERSE_Crypto := by decide
  have e1 : round2dp (50 : ℚ) = 50 := round2dp_of_isCent ⟨5000, by norm_num⟩
  have e2 : round2dp (25 : ℚ) = 25 := round2dp_of_isCent ⟨2500, by norm_num⟩
  have hs : (cryptoBoostStage 9 (bucketStage witnessWeights)).total_stock = 50 := by
    rw [cryptoBoostStage, if_neg (by rw [hb2]; norm_num)]
    exact hb1
  have hc : (cryptoBoostStage 9 (bucketStage witnessWeights)).total_crypto = 25 := by
    rw [cryptoBoostStage, if_neg (by rw [hb2]; norm_num)]
    exact hb2
  have hs5 : (cryptoBoostStage 5 (bucketStage witnessWeights)).total_stock = 50 := by
    rw [cryptoBoostStage, if_neg (by norm_num)]
    exact hb1
  have hc5 : (cryptoBoostStage 5 (bucketStage witnessWeights)).total_crypto = 25 := by
    rw [cryptoBoostStage, if_neg (by norm_num)]
    exact hb2
  rw [hs, hc, hs5, hc5]
  have hcm : (cryptoBoostStage 9 (bucketStage witnessWeights)).total_commodity = 0 := by
    rw [cryptoBoostStage, if_neg (by rw [hb2]; norm_num), bucketStage_eq]
    simp [classTotal, witnessWeights, retained, UNIVERSE_Commodity, List.filter_cons]
  have hmf : (cryptoBoostStage 9 (bucketStage witnessWeights)).total_mutualfund = 0 := by
    rw [cryptoBoostStage, if_neg (by rw [hb2]; norm_num), bucketStage_eq]
    simp [classTotal, witnessWeights, retained, UNIVERSE_MutualFund, List.filter_cons]
  have hcm5 : (cryptoBoostStage 5 (bucketStage witnessWeights)).total_commodity = 0 := by
    rw [cryptoBoostStage, if_neg (by norm_num), bucketStage_eq]
    simp [classTotal, witnessWeights, retained, UNIVERSE_Commodity, List.filter_cons]
  have hmf5 : (cryptoBoostStage 5 (bucketStage witnessWeights)).total_mutualfund = 0 := by
    rw [cryptoBoostStage, if_neg (by norm_num), bucketStage_eq]
    simp [classTotal, witnessWeights, retained, UNIVERSE_MutualFund, List.filter_cons]
  rw [hcm, hmf, hcm5, hmf5]
  norm_num

/-- C4: the endpoint's only failure handling is falling back to the static
table: a failing download, a frame with no price level, an empty or
under-30-row frame, or a failing optimizer call each yield exactly
`fallback_optimization(capital, risk)`, and every run either returns that
fallback or completes the main path on successful fetch and optimize. -/
theorem fallback_on_failure (env : Env) (req : OptimizationRequest) :
    ((∃ e, fetchStage env = Except.error e) ∨
      (∃ data e, fetchStage env = Except.ok data ∧
        env.optimizerRun data (selectObjective req.risk_tolerance) = Except.error e) →
      optimize_portfolio env req =
        fallback_optimization req.capital req.risk_tolerance) ∧
    (∀ raw data, env.download = Except.ok raw → extractData raw = Except.ok data →
      (data.empty = true ∨ data.length < 30) →
      optimize_portfolio env req =
        fallback_optimization req.capital req.risk_tolerance) ∧
    (optimize_portfolio env req = fallback_optimization req.capital req.risk_tolerance ∨
      ∃ data cleaned, fetchStage env = Except.ok data ∧
        env.optimizerRun data (selectObjective req.risk_tolerance) = Except.ok cleaned ∧
        optimize_portfolio env req =
          mainResponse req.risk_tolerance cleaned
            (env.performance data (selectObjective req.risk_tolerance))) := by
  refine ⟨?_, ?_, ?_⟩
  · rintro (⟨e, he⟩ | ⟨data, e, hd, ho⟩)
    · simp only [optimize_portfolio, he]
    · simp only [optimize_portfolio, hd, ho]
  · intro raw data hraw hex hbad
    have hf : fetchStage env = Except.error "Insufficient data" := by
      simp only [fetchStage, hraw, hex]
      rcases hbad with hb | hb <;> simp [hb]
    simp only [optimize_portfolio, hf]
  · cases hf : fetchStage env with
    | error e => exact Or.inl (by simp only [optimize_portfolio, hf])
    | ok data =>
      cases ho : env.optimizerRun data (selectObjective req.risk_tolerance) with
      | error e => exact Or.inl (by simp only [optimize_portfolio, hf, ho])
      | ok cleaned =>
        exact Or.inr ⟨data, cleaned, rfl, ho, by simp only [optimize_portfolio, hf, ho]⟩

/-- Witness for C4: a rate-limited download makes the endpoint answer with
the fallback table. -/
theorem fallback_on_failure_witness :
    optimize_portfolio envFetchFail reqRisk5 = fallback_optimization 10000 5 :=
  (fallback_on_failure envFetchFail reqRisk5).1 (Or.inl ⟨"HTTP 429", rfl⟩)

/-- C5: the endpoint is the fixed linear pipeline fetch →
optimize-with-selected-objective → bucket → crypto boost → speculative
overlay → assemble → format, with the fallback as the only early exit. -/
theorem optimize_pipeline (env : Env) (req : OptimizationRequest) :
    optimize_portfolio env req =
      match fetchStage env with
      | Except.error _ => fallback_optimization req.capital req.risk_tolerance
      | Except.ok data =>
        match env.optimizerRun data (selectObjective req.risk_tolerance) with
        | Except.error _ => fallback_optimization req.capital req.risk_tolerance
        | Except.ok cleaned =>
          formatStage req.risk_tolerance
            (assembleStage (cryptoBoostStage req.risk_tolerance (bucketStage cleaned))
              (speculativeStage req.risk_tolerance).1
              (speculativeStage req.risk_tolerance).2)
            (env.performance data (selectObjective req.risk_tolerance)) := rfl

theorem mem_coreItems_assetClass {b : Buckets} {factor : ℚ} {item : AllocationItem}
    (h : item ∈ coreItems b factor) :
    item.assetClass = "Stock" ∨ item.assetClass = "Crypto" ∨
    item.assetClass = "Commodity" ∨ item.assetClass = "MutualFund" := by
  simp only [coreItems, List.mem_append] at h
  rcases h with ((h | h) | h) | h <;> split at h <;> simp_all

/-- C6: the post-processing is deterministic and stateless: equal inputs
give equal responses, the n-th response of a request sequence depends only
on the n-th request, and the Lottery picks are the same fixed strings on
every request because the generator is re-seeded with 42 inside the
handler. -/
theorem deterministic_stateless :
    (∀ (risk : ℤ) (w : List (String × ℚ)) (perf : ℚ × ℚ × ℚ)
        (risk2 : ℤ) (w2 : List (String × ℚ)) (perf2 : ℚ × ℚ × ℚ),
      risk = risk2 → w = w2 → perf = perf2 →
      mainResponse risk w perf = mainResponse risk2 w2 perf2) ∧
    (∀ (env : Env) (reqs : List OptimizationRequest) (i : Fin reqs.length),
      (handleSequence env reqs).get (Fin.cast (by simp [handleSequence]) i) =
        optimize_portfolio env (reqs.get i)) ∧
    (∀ (risk : ℤ) (w : List (String × ℚ)) (perf : ℚ × ℚ × ℚ), 8 ≤ risk →
      ∀ item ∈ (mainResponse risk w perf).allocation,
        item.assetClass = "Lottery" →
        item.recommendedAssets = [powerballPick, megaMillionsPick]) := by
  refine ⟨?_, ?_, ?_⟩
  · intro risk w perf risk2 w2 perf2 h1 h2 h3
    subst h1; subst h2; subst h3; rfl
  · intro env reqs i
    simp [handleSequence, List.get_eq_getElem]
  · intro risk w perf h8 item hmem hcls
    simp only [mainResponse, formatStage, assembleStage, speculativeStage,
      if_pos h8] at hmem
    rcases List.mem_append.1 hmem with hcore | hspec
    · rcases mem_coreItems_assetClass hcore with h | h | h | h <;>
        rw [hcls] at h <;> exact absurd h (by decide)
    · simp only [List.mem_cons, List.not_mem_nil, or_false] at hspec
      rcases hspec with h | h | h <;> subst h
      · exact absurd hcls (show ("Prediction" : String) ≠ "Lottery" by decide)
      · exact absurd hcls (show ("Sports" : String) ≠ "Lottery" by decide)
      · rfl

/-- Witness for C6: determinism applied at risk 9 on the witness weights,
and the one-request sequence behaves as a single call. -/
theorem deterministic_stateless_witness :
    mainResponse 9 witnessWeights (1/10, 1/5, 3/2) =
      mainResponse 9 witnessWeights (1/10, 1/5, 3/2) ∧
    (handleSequence envFetchFail [reqRisk5]).get
        (Fin.cast (by simp [handleSequence])
          (⟨0, by norm_num⟩ : Fin [reqRisk5].length)) =
      optimize_portfolio envFetchFail reqRisk5 :=
  ⟨deterministic_stateless.1 9 witnessWeights (1/10, 1/5, 3/2)
      9 witnessWeights (1/10, 1/5, 3/2) rfl rfl rfl,
   deterministic_stateless.2.1 envFetchFail [reqRisk5]
     (⟨0, by norm_num⟩ : Fin [reqRisk5].length)⟩

/-- Witness for C10 at risk 5. -/
theorem fallback_table_shape_witness :
    ∃ s c : ℤ,
      (fallback_optimization 1000 5).allocation =
        [ { assetClass := "Stock", percentage := (s : ℚ),
            reasoning := "Fallback Model", recommendedAssets := ["SPY"] },
          { assetClass := "Crypto", percentage := (c : ℚ),
            reasoning := "Fallback Model", recommendedAssets := ["BTC"] },
          { assetClass := "Commodity", percentage := (10 : ℚ),
            reasoning := "Fallback Model", recommendedAssets := ["GLD"] },
          { assetClass := "Cash", percentage := ((100 - (s + c + 10) : ℤ) : ℚ),
            reasoning := "Fallback Model", recommendedAssets := ["USD"] } ] ∧
      sumPct (fallback_optimization 1000 5).allocation = 100 ∧
      (fallback_optimization 1000 5).riskScore = 5 :=
  fallback_table_shape 1000 5 (by norm_num) (by norm_num)
